import Mathlib

/-!
Verification of the serialization-customization guide notebook
(guides/ipynb/customizing_saving_and_serialization.ipynb).

The notebook defines four example classes overriding the framework saving
hooks (save_own_variables/load_own_variables, save_assets/load_assets,
get_build_config/build_from_config, get_compile_config/compile_from_config)
plus a custom loss and metric, and exercises them with model.save and
keras.models.load_model round trips guarded by assert calls.

This file shallowly embeds those definitions: layers become records, the
key-value store staged for persistence becomes an association list keyed by
strings (Python dict writes prepend, lookup finds the latest entry), the
asset directory becomes an association list from file names to file
contents, and tensor arithmetic is over exact rationals.  Python string
formatting f-strings over integers are embedded as the decimal
representation Nat.repr.
-/

namespace KerasGuide

/-! ### The key-value store object used to stage variables for persistence -/

/-- A Python dict keyed by strings, embedded as an association list.
A write prepends; lookup returns the most recent write. -/
def Store (α : Type) : Type := List (String × α)

/-- The empty store handed to save_own_variables by the framework. -/
def Store.empty {α : Type} : Store α := []

/-- Python `store[k] = v`. -/
def Store.insert {α : Type} (k : String) (v : α) (s : Store α) : Store α :=
  (k, v) :: s

/-- Python `store[k]`, fallible: none when the key is absent. -/
def Store.lookup {α : Type} (k : String) (s : Store α) : Option α :=
  List.lookup k s

/-! ### Decimal keys: the embedding of the Python f-string `f"{i}"` -/

/-- The string key `f"{i}"` used by the variable store: the decimal
representation of the index. -/
def pyStr (n : Nat) : String := Nat.repr n

/-- Recursive decimal digit list of a natural number, most significant
digit first.  Reference implementation used to reason about Nat.repr. -/
def natDigits (n : Nat) : List Char :=
  if h : n < 10 then [Nat.digitChar n]
  else natDigits (n / 10) ++ [Nat.digitChar (n % 10)]
  termination_by n
  decreasing_by
    exact Nat.div_lt_self (by omega) (by omega)

/-- Decimal digit value parser, left inverse to natDigits. -/
def parseDigits (l : List Char) : Nat :=
  l.foldl (fun a c => 10 * a + (c.toNat - 48)) 0

/-! ### LayerWithCustomVariables: save_own_variables and load_own_variables

The layer subclasses keras.layers.Dense; its layer weights (trainable plus
non-trainable, in order) are modelled as the list `weights`, and the extra
tf.Variable created in __init__ as `stored_variables`.  Tensor values are
an arbitrary type α. -/

structure LayerWithCustomVariables (α : Type) where
  weights : List α
  stored_variables : α

/-- The default save_own_variables shown in the guide:
`for i, v in enumerate(all_vars): store[f"{i}"] = v.numpy()`,
started at index i. -/
def saveWeights {α : Type} : List α → Nat → Store α → Store α
  | [], _, store => store
  | v :: rest, i, store => saveWeights rest (i + 1) (Store.insert (pyStr i) v store)

/-- The override: `super().save_own_variables(store)` followed by
`store["variables"] = self.stored_variables.numpy()`. -/
def LayerWithCustomVariables.save_own_variables {α : Type}
    (self : LayerWithCustomVariables α) (store : Store α) : Store α :=
  Store.insert "variables" self.stored_variables (saveWeights self.weights 0 store)

/-- The loop `for i, v in enumerate(self.weights): v.assign(store[f"{i}"])`,
started at index i: each weight is replaced by the stored value; a missing
key is a KeyError, modelled as none. -/
def loadWeights {α : Type} (store : Store α) : Nat → List α → Option (List α)
  | _, [] => some []
  | i, _ :: rest => do
    let w ← Store.lookup (pyStr i) store
    let ws ← loadWeights store (i + 1) rest
    return w :: ws

/-- The override: assigns stored_variables from `store["variables"]`, then
reassigns every layer weight from `store[f"{i}"]`. -/
def LayerWithCustomVariables.load_own_variables {α : Type}
    (self : LayerWithCustomVariables α) (store : Store α) :
    Option (LayerWithCustomVariables α) := do
  let sv ← Store.lookup "variables" store
  let ws ← loadWeights store 0 self.weights
  return { weights := ws, stored_variables := sv }

/-! ### LayerWithCustomAssets: save_assets and load_assets -/

/-- The asset directory inner_path, embedded as an association list from
file names to file contents; a write with mode "w" shadows any previous
file of the same name. -/
def Dir : Type := List (String × List Char)

/-- A fresh inner_path directory. -/
def Dir.empty : Dir := []

/-- Python: `with open(os.path.join(inner_path, name), "w") as f: f.write(contents)`. -/
def Dir.write (name : String) (contents : List Char) (d : Dir) : Dir :=
  (name, contents) :: d

/-- Python: `with open(os.path.join(inner_path, name), "r") as f: f.read()`,
fallible when the file is absent. -/
def Dir.read (name : String) (d : Dir) : Option (List Char) :=
  List.lookup name d

/-- The layer state relevant to the asset hooks: the vocab string. -/
structure LayerWithCustomAssets where
  vocab : List Char

/-- Writes the vocab (sentence) to the text file vocabulary.txt at save time. -/
def LayerWithCustomAssets.save_assets (self : LayerWithCustomAssets)
    (inner_path : Dir) : Dir :=
  Dir.write "vocabulary.txt" self.vocab inner_path

/-- Python `text.replace("<unk>", "little")`: left-to-right scan replacing
each occurrence of the five characters of `<unk>` by the six characters of
`little`. -/
def unkToLittle : List Char → List Char
  | '<' :: 'u' :: 'n' :: 'k' :: '>' :: rest =>
      'l' :: 'i' :: 't' :: 't' :: 'l' :: 'e' :: unkToLittle rest
  | c :: rest => c :: unkToLittle rest
  | [] => []

/-- Reads the vocab back from vocabulary.txt and replaces `<unk>` by
`little` before assigning it to the layer. -/
def LayerWithCustomAssets.load_assets (self : LayerWithCustomAssets)
    (inner_path : Dir) : Option LayerWithCustomAssets := do
  let text ← Dir.read "vocabulary.txt" inner_path
  return { vocab := unkToLittle text }

/-- Whether the string contains an occurrence of `<unk>`. -/
def containsUnk : List Char → Bool
  | '<' :: 'u' :: 'n' :: 'k' :: '>' :: _ => true
  | _ :: rest => containsUnk rest
  | [] => false

/-! ### Filesystem archive paths used by the example scripts -/

/-- For each example script in notebook order, the path passed to
model.save paired with the path passed to keras.models.load_model. -/
def archivePaths : List (String × String) :=
  [("custom_vars_model.keras", "custom_vars_model.keras"),
   ("custom_assets_model.keras", "custom_assets_model.keras"),
   ("custom_build_model.keras", "custom_build_model.keras"),
   ("custom_compile_model.keras", "custom_compile_model.keras")]

/-- The archive paths written by the model.save calls, in notebook order. -/
def savePaths : List String := archivePaths.map Prod.fst

/-- The only asset file name written under an archive asset sub-path
(by LayerWithCustomAssets.save_assets). -/
def assetFiles : List String := ["vocabulary.txt"]

/-! ### The methods defined on the notebook example classes -/

/-- Every (class, method) pair defined in the notebook code cells, in
source order. -/
def overriddenMethods : List (String × String) :=
  [("LayerWithCustomVariables", "__init__"),
   ("LayerWithCustomVariables", "save_own_variables"),
   ("LayerWithCustomVariables", "load_own_variables"),
   ("LayerWithCustomVariables", "call"),
   ("LayerWithCustomAssets", "__init__"),
   ("LayerWithCustomAssets", "save_assets"),
   ("LayerWithCustomAssets", "load_assets"),
   ("LayerWithCustomBuild", "__init__"),
   ("LayerWithCustomBuild", "call"),
   ("LayerWithCustomBuild", "get_config"),
   ("LayerWithCustomBuild", "build"),
   ("LayerWithCustomBuild", "get_build_config"),
   ("LayerWithCustomBuild", "build_from_config"),
   ("ModelWithCustomCompile", "__init__"),
   ("ModelWithCustomCompile", "call"),
   ("ModelWithCustomCompile", "compile"),
   ("ModelWithCustomCompile", "get_compile_config"),
   ("ModelWithCustomCompile", "compile_from_config")]

/-- The four saving-customization hook pairs listed under "APIs" in the
guide, each as (save-direction method, load-direction method). -/
def hookPairs : List (String × String) :=
  [("save_own_variables", "load_own_variables"),
   ("save_assets", "load_assets"),
   ("get_build_config", "build_from_config"),
   ("get_compile_config", "compile_from_config")]

/-- Whether a method name is one of the framework saving hooks. -/
def isHookMethod (m : String) : Bool :=
  hookPairs.any fun p => p.1 == m || p.2 == m

/-! ### LayerWithCustomBuild: get_build_config and build_from_config -/

/-- A weight produced by add_weight: its shape, the name of the
keras weight init function it was created from, and trainability. -/
structure BuildWeight where
  shape : List Nat
  init : String
  trainable : Bool

/-- The layer state relevant to the build hooks.  build_input_shape is
the input shape recorded by the base class on super().build, the shape the
base get_build_config reports. -/
structure LayerWithCustomBuild where
  units : Nat
  w : Option BuildWeight
  b : Option BuildWeight
  layer_init : Option String
  built : Bool
  build_input_shape : Option (List Nat)

/-- The overridden build with the extra layer_init argument:
`super().build(input_shape)` marks the layer built and records the input
shape, then two weights are added with the given init function, and
layer_init is stored on the layer.  `input_shape[-1]` fails on an empty
shape, hence the Option. -/
def LayerWithCustomBuild.build (self : LayerWithCustomBuild)
    (input_shape : List Nat) (layer_init : String) : Option LayerWithCustomBuild := do
  let lastDim ← input_shape.getLast?
  return { units := self.units,
           w := some { shape := [lastDim, self.units], init := layer_init, trainable := true },
           b := some { shape := [self.units], init := layer_init, trainable := true },
           layer_init := some layer_init,
           built := true,
           build_input_shape := some input_shape }

/-- The dictionary returned by get_build_config: the base class part
(only the input shape) updated with the layer_init entry. -/
structure BuildConfig where
  input_shape : List Nat
  layer_init : String

/-- `super().get_build_config()` (only gives input_shape) updated with
`{"layer_init": self.layer_init}`; requires a built layer. -/
def LayerWithCustomBuild.get_build_config (self : LayerWithCustomBuild) :
    Option BuildConfig := do
  let shape ← self.build_input_shape
  let li ← self.layer_init
  return { input_shape := shape, layer_init := li }

/-- Calls build with the parameters at loading time. -/
def LayerWithCustomBuild.build_from_config (self : LayerWithCustomBuild)
    (config : BuildConfig) : Option LayerWithCustomBuild :=
  self.build config.input_shape config.layer_init

/-! ### ModelWithCustomCompile: get_compile_config and compile_from_config -/

/-- The dictionary returned by get_compile_config, with its three keys
model_optimizer, loss_fn and metric. -/
structure CompileConfig (O L M : Type) where
  model_optimizer : O
  loss_fn : L
  metric : M

/-- The model state relevant to the compile hooks: the two Dense layers
made in __init__ and the three attributes recorded by compile (none
before the first compile call). -/
structure ModelWithCustomCompile (D O L M : Type) where
  dense1 : D
  dense2 : D
  model_optimizer : Option O
  loss_fn : Option L
  loss_metrics : Option M

/-- The overridden compile: `super().compile(...)` hands the arguments to
the framework, then the three attributes are recorded on the model. -/
def ModelWithCustomCompile.compile {D O L M : Type}
    (self : ModelWithCustomCompile D O L M) (o : O) (l : L) (m : M) :
    ModelWithCustomCompile D O L M :=
  { self with model_optimizer := some o, loss_fn := some l, loss_metrics := some m }

/-- The parameters serialized at saving time. -/
def ModelWithCustomCompile.get_compile_config {D O L M : Type}
    (self : ModelWithCustomCompile D O L M) : Option (CompileConfig O L M) := do
  let o ← self.model_optimizer
  let l ← self.loss_fn
  let m ← self.loss_metrics
  return { model_optimizer := o, loss_fn := l, metric := m }

/-- Deserializes the three compile parameters with
keras.utils.deserialize_keras_object (embedded as the functions dO, dL,
dM) and calls compile with them. -/
def ModelWithCustomCompile.compile_from_config {D O L M O2 L2 M2 : Type}
    (self : ModelWithCustomCompile D O L M)
    (dO : O2 → O) (dL : L2 → L) (dM : M2 → M)
    (config : CompileConfig O2 L2 M2) : ModelWithCustomCompile D O L M :=
  self.compile (dO config.model_optimizer) (dL config.loss_fn) (dM config.metric)

/-! ### The custom loss and metric, over exact rational arithmetic -/

/-- tf.reduce_mean of a vector. -/
def reduce_mean (t : List ℚ) : ℚ := t.sum / t.length

/-- The custom metric: the mean of the predictions; y_true is unused in
the source. -/
def mean_pred (y_true y_pred : List ℚ) : ℚ := reduce_mean y_pred

/-- The custom loss over 2-dimensional tensors (lists of rows):
squared_difference(y_pred, y_true), elementwise division by 10, then
reduce_sum over axis 1. -/
def small_square_sum_loss (y_true y_pred : List (List ℚ)) : List ℚ :=
  let loss := List.zipWith (List.zipWith fun a b => (a - b) ^ 2) y_pred y_true
  let loss2 := loss.map (List.map fun x => x / 10)
  loss2.map List.sum

/-- The claim wording for the loss: the sum over axis 1 of the squared
differences, divided by 10. -/
def sumSquaredDiffDivTen (y_true y_pred : List (List ℚ)) : List ℚ :=
  (List.zipWith (List.zipWith fun a b => (a - b) ^ 2) y_pred y_true).map
    fun row => row.sum / 10

/-! ### The library calls made by the notebook code cells -/

/-- The modules imported by the notebook. -/
def notebookImports : List String := ["os", "numpy", "tensorflow", "keras"]

/-- Every distinct library or framework operation invoked anywhere in the
notebook code cells. -/
def notebookCalls : List String :=
  ["keras.utils.register_keras_serializable",
   "keras.saving.register_keras_serializable",
   "keras.utils.deserialize_keras_object",
   "keras.Sequential",
   "keras.layers.Dense",
   "keras.layers.Layer.build",
   "keras.layers.Layer.add_weight",
   "keras.layers.Layer.get_config",
   "keras.layers.Layer.get_build_config",
   "keras.layers.Layer.call",
   "keras.layers.Dense.save_own_variables",
   "keras.Model.compile",
   "keras.Model.fit",
   "keras.Model.save",
   "keras.models.load_model",
   "tf.Variable",
   "tf.Variable.numpy",
   "tf.Variable.assign",
   "tf.matmul",
   "tf.math.squared_difference",
   "tf.reduce_sum",
   "tf.reduce_mean",
   "np.random.random",
   "np.testing.assert_allclose",
   "np.testing.assert_string_equal",
   "np.testing.assert_equal",
   "os.path.join",
   "open",
   "file.write",
   "file.read",
   "str.replace",
   "dict",
   "dict.update",
   "enumerate"]

/-- Python constructs and modules that create threads, processes, or
asynchronous tasks. -/
def concurrencyConstructs : List String :=
  ["threading", "threading.Thread", "multiprocessing",
   "multiprocessing.Process", "asyncio", "asyncio.run",
   "concurrent.futures", "concurrent.futures.ThreadPoolExecutor",
   "subprocess", "subprocess.Popen", "os.fork", "async def", "await"]

/-! ### Helper lemmas -/

theorem natDigits_of_lt {n : Nat} (h : n < 10) :
    natDigits n = [Nat.digitChar n] := by
  rw [natDigits]
  simp [h]

theorem natDigits_of_ge {n : Nat} (h : ¬ n < 10) :
    natDigits n = natDigits (n / 10) ++ [Nat.digitChar (n % 10)] := by
  rw [natDigits]
  simp [h]

theorem natDigits_ne_nil (n : Nat) : natDigits n ≠ [] := by
  by_cases h : n < 10
  · rw [natDigits_of_lt h]; simp
  · rw [natDigits_of_ge h]; simp

/-- Core toDigitsCore agrees with natDigits when given enough fuel. -/
theorem toDigitsCore_eq_natDigits :
    ∀ (f n : Nat) (ds : List Char), n < 10 ^ f → 0 < f →
      Nat.toDigitsCore 10 f n ds = natDigits n ++ ds := by
  intro f
  induction f with
  | zero => intro n ds _ hf; omega
  | succ f ih =>
    intro n ds h _
    by_cases h10 : n < 10
    · have hdiv : n / 10 = 0 := Nat.div_eq_of_lt h10
      simp only [Nat.toDigitsCore]
      rw [hdiv, if_pos rfl]
      rw [natDigits_of_lt h10, Nat.mod_eq_of_lt h10]
      simp
    · have hdiv : ¬ n / 10 = 0 := by omega
      have hlt : n / 10 < 10 ^ f :=
        Nat.div_lt_of_lt_mul (by rw [Nat.mul_comm, ← Nat.pow_succ]; exact h)
      have hf : 0 < f := by
        rcases Nat.eq_zero_or_pos f with h0 | h0
        · subst h0; simp at hlt; omega
        · exact h0
      simp only [Nat.toDigitsCore]
      rw [if_neg hdiv]
      rw [ih (n / 10) _ hlt hf]
      rw [natDigits_of_ge h10]
      simp

theorem repr_eq_natDigits (n : Nat) :
    Nat.repr n = (natDigits n).asString := by
  have hfuel : n < 10 ^ (n + 1) := by
    calc n < n + 1 := Nat.lt_succ_self n
    _ ≤ 10 ^ (n + 1) := Nat.le_of_lt (Nat.lt_pow_self (by omega) _)
  unfold Nat.repr Nat.toDigits
  rw [toDigitsCore_eq_natDigits (n + 1) n [] hfuel (Nat.succ_pos n)]
  simp

/-- Decimal digit value parser, left inverse to natDigits. -/

theorem digitChar_toNat_of_lt {d : Nat} (h : d < 10) :
    (Nat.digitChar d).toNat = d + 48 := by
  interval_cases d <;> rfl

theorem parseDigits_append_last (l : List Char) (c : Char) :
    parseDigits (l ++ [c]) = 10 * parseDigits l + (c.toNat - 48) := by
  unfold parseDigits
  rw [List.foldl_append]
  rfl

theorem parseDigits_natDigits (n : Nat) : parseDigits (natDigits n) = n := by
  induction n using Nat.strong_induction_on with
  | _ n ih =>
    by_cases h : n < 10
    · rw [natDigits_of_lt h]
      unfold parseDigits
      simp [digitChar_toNat_of_lt h]
    · rw [natDigits_of_ge h]
      rw [parseDigits_append_last]
      rw [ih (n / 10) (Nat.div_lt_self (by omega) (by omega))]
      rw [digitChar_toNat_of_lt (Nat.mod_lt n (by omega))]
      omega

theorem natDigits_injective : Function.Injective natDigits := by
  intro m n h
  have := parseDigits_natDigits m
  rw [h, parseDigits_natDigits] at this
  omega

/-- The store keys `f"{i}"` of distinct indices are distinct. -/
theorem pyStr_injective : Function.Injective pyStr := by
  intro m n h
  apply natDigits_injective
  unfold pyStr at h
  rw [repr_eq_natDigits, repr_eq_natDigits] at h
  have : (natDigits m).asString.data = (natDigits n).asString.data := by rw [h]
  simpa [List.asString] using this

/-- Every character of a decimal representation is a digit character. -/
theorem natDigits_mem_le (n : Nat) :
    ∀ c ∈ natDigits n, c.toNat ≤ 57 := by
  induction n using Nat.strong_induction_on with
  | _ n ih =>
    intro c hc
    by_cases h : n < 10
    · rw [natDigits_of_lt h] at hc
      simp at hc
      subst hc
      rw [digitChar_toNat_of_lt h]
      omega
    · rw [natDigits_of_ge h] at hc
      rcases List.mem_append.mp hc with h1 | h2
      · exact ih (n / 10) (Nat.div_lt_self (by omega) (by omega)) c h1
      · simp at h2
        subst h2
        rw [digitChar_toNat_of_lt (Nat.mod_lt n (by omega))]
        omega

/-- The key "variables" written by LayerWithCustomVariables never collides
with an index key `f"{i}"`. -/
theorem pyStr_ne_variables (n : Nat) : pyStr n ≠ "variables" := by
  intro h
  unfold pyStr at h
  rw [repr_eq_natDigits] at h
  have hdata : (natDigits n).asString.data = "variables".data := by rw [h]
  simp only [List.asString] at hdata
  have hv : 'v' ∈ natDigits n := by
    rw [hdata]
    exact List.mem_cons_self _ _
  have := natDigits_mem_le n 'v' hv
  exact absurd this (by decide)

theorem lookup_insert_same {α : Type} (k : String) (v : α) (s : Store α) :
    Store.lookup k (Store.insert k v s) = some v := by
  simp [Store.lookup, Store.insert, List.lookup]

theorem lookup_insert_other {α : Type} {k k2 : String} (h : k ≠ k2) (v : α)
    (s : Store α) : Store.lookup k (Store.insert k2 v s) = Store.lookup k s := by
  simp only [Store.lookup, Store.insert, List.lookup]
  rw [beq_false_of_ne h]

theorem lookup_saveWeights_out {α : Type} :
    ∀ (ws : List α) (i : Nat) (store : Store α) (k : String),
      (∀ j, j < ws.length → k ≠ pyStr (i + j)) →
      Store.lookup k (saveWeights ws i store) = Store.lookup k store := by
  intro ws
  induction ws with
  | nil => intro i store k _; rfl
  | cons v rest ih =>
    intro i store k h
    show Store.lookup k (saveWeights rest (i + 1) (Store.insert (pyStr i) v store)) = _
    rw [ih (i + 1) _ k (by
      intro j hj
      have := h (j + 1) (by simpa using Nat.succ_lt_succ hj)
      simpa [Nat.add_assoc, Nat.add_comm 1 j] using this)]
    exact lookup_insert_other (by simpa using h 0 (by simp)) v store

theorem lookup_saveWeights_in {α : Type} :
    ∀ (ws : List α) (i : Nat) (store : Store α) (j : Nat) (hj : j < ws.length),
      Store.lookup (pyStr (i + j)) (saveWeights ws i store) = some (ws.get ⟨j, hj⟩) := by
  intro ws
  induction ws with
  | nil => intro i store j hj; simp at hj
  | cons v rest ih =>
    intro i store j hj
    match j with
    | 0 =>
      show Store.lookup (pyStr i) (saveWeights rest (i + 1) (Store.insert (pyStr i) v store)) = _
      rw [lookup_saveWeights_out rest (i + 1) _ (pyStr i) (by
        intro j2 _ hk
        have := pyStr_injective hk
        omega)]
      exact lookup_insert_same (pyStr i) v store
    | j2 + 1 =>
      show Store.lookup (pyStr (i + (j2 + 1))) (saveWeights rest (i + 1) (Store.insert (pyStr i) v store)) = _
      have harith : i + (j2 + 1) = (i + 1) + j2 := by omega
      rw [harith]
      rw [ih (i + 1) _ j2 (by simpa using Nat.lt_of_succ_lt_succ hj)]
      simp

theorem loadWeights_of_lookup {α : Type} :
    ∀ (ws : List α) (i : Nat) (store : Store α),
      (∀ (j : Nat) (hj : j < ws.length),
        Store.lookup (pyStr (i + j)) store = some (ws.get ⟨j, hj⟩)) →
      loadWeights store i ws = some ws := by
  intro ws
  induction ws with
  | nil => intro i store _; rfl
  | cons v rest ih =>
    intro i store h
    have h0 : Store.lookup (pyStr i) store = some v := by
      simpa using h 0 (by simp)
    have hrest : loadWeights store (i + 1) rest = some rest := by
      apply ih
      intro j hj
      have := h (j + 1) (by simpa using Nat.succ_lt_succ hj)
      simpa [Nat.add_assoc, Nat.add_comm 1 j] using this
    simp [loadWeights, h0, hrest]

/-- Round trip helper: after save_own_variables into the empty store,
load_own_variables on the same layer restores the exact layer state. -/
theorem load_save_own_variables {α : Type} (L : LayerWithCustomVariables α) :
    L.load_own_variables (L.save_own_variables Store.empty) = some L := by
  obtain ⟨ws, sv⟩ := L
  have hvar : Store.lookup "variables"
      (LayerWithCustomVariables.save_own_variables ⟨ws, sv⟩ Store.empty) = some sv :=
    lookup_insert_same _ _ _
  have hws : loadWeights
      (LayerWithCustomVariables.save_own_variables ⟨ws, sv⟩ Store.empty) 0 ws = some ws := by
    apply loadWeights_of_lookup
    intro j hj
    show Store.lookup (pyStr (0 + j))
      (Store.insert "variables" sv (saveWeights ws 0 Store.empty)) = _
    rw [lookup_insert_other (fun hk => pyStr_ne_variables (0 + j) hk) sv _]
    exact lookup_saveWeights_in ws 0 Store.empty j (by simpa using hj)
  simp [LayerWithCustomVariables.load_own_variables, hvar, hws]

/-- Lookup facts helper: the saved store holds stored_variables under the
key "variables" and the i-th weight under the key `f"{i}"`. -/
theorem save_own_variables_lookup {α : Type} (L : LayerWithCustomVariables α) :
    Store.lookup "variables" (L.save_own_variables Store.empty) = some L.stored_variables
    ∧ ∀ i : Nat, Store.lookup (pyStr i) (L.save_own_variables Store.empty) = L.weights[i]? := by
  constructor
  · exact lookup_insert_same _ _ _
  · intro i
    rw [show L.save_own_variables Store.empty =
      Store.insert "variables" L.stored_variables (saveWeights L.weights 0 Store.empty) from rfl]
    rw [lookup_insert_other (fun hk => pyStr_ne_variables i hk) _ _]
    by_cases hi : i < L.weights.length
    · rw [show i = 0 + i from (Nat.zero_add i).symm]
      rw [lookup_saveWeights_in L.weights 0 Store.empty i (by simpa using hi)]
      simp [List.getElem?_eq_getElem hi]
    · rw [lookup_saveWeights_out L.weights 0 Store.empty (pyStr i) (by
        intro j hj hk
        have := pyStr_injective hk
        omega)]
      rw [List.getElem?_eq_none (by omega)]
      rfl

theorem unkToLittle_of_not_contains :
    ∀ v : List Char, containsUnk v = false → unkToLittle v = v := by
  intro v
  induction v using unkToLittle.induct with
  | case1 rest ih =>
    intro h
    simp [containsUnk] at h
  | case2 c rest hne ih =>
    intro h
    rw [unkToLittle.eq_2 _ _ hne, containsUnk.eq_2 _ _ hne] at *
    rw [ih h]
  | case3 => intro _; rfl

theorem le_length_unkToLittle :
    ∀ v : List Char, v.length ≤ (unkToLittle v).length := by
  intro v
  induction v using unkToLittle.induct with
  | case1 rest ih =>
    rw [unkToLittle.eq_1]
    simp only [List.length_cons]
    omega
  | case2 c rest hne ih =>
    rw [unkToLittle.eq_2 _ _ hne]
    simp only [List.length_cons]
    omega
  | case3 => simp [unkToLittle]

theorem lt_length_unkToLittle :
    ∀ v : List Char, containsUnk v = true → v.length < (unkToLittle v).length := by
  intro v
  induction v using unkToLittle.induct with
  | case1 rest ih =>
    intro _
    rw [unkToLittle.eq_1]
    have := le_length_unkToLittle rest
    simp only [List.length_cons]
    omega
  | case2 c rest hne ih =>
    intro h
    rw [containsUnk.eq_2 _ _ hne] at h
    rw [unkToLittle.eq_2 _ _ hne]
    have := ih h
    simp only [List.length_cons]
    omega
  | case3 =>
    intro h
    simp [containsUnk] at h

/-- The replacement is the identity exactly on strings with no occurrence
of the token `<unk>`. -/
theorem unkToLittle_eq_self_iff (v : List Char) :
    unkToLittle v = v ↔ containsUnk v = false := by
  constructor
  · intro h
    by_contra hc
    have hc2 : containsUnk v = true := by
      cases hh : containsUnk v
      · exact absurd hh hc
      · rfl
    have := lt_length_unkToLittle v hc2
    rw [h] at this
    omega
  · exact unkToLittle_of_not_contains v

/-- Round trip helper for the asset hooks: saving writes the vocab to
vocabulary.txt and loading reads it back through the replacement. -/
theorem load_save_assets (v : List Char) (d : Dir) (self2 : LayerWithCustomAssets) :
    self2.load_assets (LayerWithCustomAssets.save_assets ⟨v⟩ d) =
      some ⟨unkToLittle v⟩ := by
  rfl

theorem sum_map_div (c : ℚ) : ∀ l : List ℚ, (l.map fun x => x / c).sum = l.sum / c := by
  intro l
  induction l with
  | nil => simp
  | cons x xs ih =>
    simp only [List.map_cons, List.sum_cons, ih]
    rw [add_div]

/-- Helper: whatever layer build_from_config succeeds on, the result has
the layer_init of the config and is built. -/
theorem build_from_config_sets (self3 self4 : LayerWithCustomBuild) (cfg : BuildConfig)
    (h : self3.build_from_config cfg = some self4) :
    self4.layer_init = some cfg.layer_init ∧ self4.built = true := by
  unfold LayerWithCustomBuild.build_from_config LayerWithCustomBuild.build at h
  cases hc : cfg.input_shape.getLast? with
  | none =>
    rw [hc] at h
    exact absurd h (by simp [Bind.bind])
  | some ld =>
    rw [hc] at h
    simp only [Bind.bind, Option.some_bind, Option.pure_def, Option.some.injEq] at h
    subst h
    exact ⟨rfl, rfl⟩

/-! ### The claims -/

/-- C2: saving a LayerWithCustomVariables into the empty store places
stored_variables under the key "variables" and the i-th weight under the
key `f"{i}"`, and a subsequent load_own_variables on the same layer
restores stored_variables and every weight to their save-time values. -/
theorem claim2_save_load_own_variables :
    ∀ (α : Type) (L : LayerWithCustomVariables α),
      Store.lookup "variables" (L.save_own_variables Store.empty) = some L.stored_variables
      ∧ (∀ i : Nat, Store.lookup (pyStr i) (L.save_own_variables Store.empty) = L.weights[i]?)
      ∧ L.load_own_variables (L.save_own_variables Store.empty) = some L := by
  intro α L
  obtain ⟨h1, h2⟩ := save_own_variables_lookup L
  exact ⟨h1, h2, load_save_own_variables L⟩

/-- C3: for every vocab string, save_assets followed by load_assets on the
same directory sets the vocab to the saved string with every occurrence of
the token `<unk>` replaced by `little`; the vocab survives the cycle
unchanged exactly when it contains no occurrence of the token. -/
theorem claim3_assets_roundtrip :
    ∀ (v : List Char) (d : Dir) (self2 : LayerWithCustomAssets),
      self2.load_assets (LayerWithCustomAssets.save_assets ⟨v⟩ d) = some ⟨unkToLittle v⟩
      ∧ (unkToLittle v = v ↔ containsUnk v = false) := by
  intro v d self2
  exact ⟨load_save_assets v d self2, unkToLittle_eq_self_iff v⟩

/-- C7: get_compile_config after a compile call returns exactly the
dictionary with the three keys model_optimizer, loss_fn and metric holding
the arguments of that most recent compile call, and compile_from_config
re-compiles the model with the deserialized values of exactly those three
entries. -/
theorem claim7_compile_config :
    ∀ (D O L M O2 L2 M2 : Type) (self self2 : ModelWithCustomCompile D O L M)
      (o : O) (l : L) (m : M) (dO : O2 → O) (dL : L2 → L) (dM : M2 → M)
      (cfg : CompileConfig O2 L2 M2),
      (self.compile o l m).get_compile_config =
        some { model_optimizer := o, loss_fn := l, metric := m }
      ∧ self2.compile_from_config dO dL dM cfg =
          self2.compile (dO cfg.model_optimizer) (dL cfg.loss_fn) (dM cfg.metric) := by
  intros
  exact ⟨rfl, rfl⟩

/-- C8: the metric mean_pred is independent of its first argument y_true,
and its value is the mean of y_pred alone. -/
theorem claim8_mean_pred_independent :
    ∀ (y_pred y_true y_true2 : List ℚ),
      mean_pred y_true y_pred = mean_pred y_true2 y_pred
      ∧ mean_pred y_true y_pred = reduce_mean y_pred := by
  intros
  exact ⟨rfl, rfl⟩

/-- C9: over exact rational arithmetic, small_square_sum_loss equals the
sum over axis 1 of the squared differences of y_pred and y_true divided by
10, and the function is symmetric in its two arguments. -/
theorem claim9_small_square_sum_loss :
    ∀ y_true y_pred : List (List ℚ),
      small_square_sum_loss y_true y_pred = sumSquaredDiffDivTen y_true y_pred
      ∧ small_square_sum_loss y_true y_pred = small_square_sum_loss y_pred y_true := by
  intro y_true y_pred
  constructor
  · unfold small_square_sum_loss sumSquaredDiffDivTen
    rw [List.map_map]
    apply List.map_congr_left
    intro row _
    simp only [Function.comp]
    exact sum_map_div 10 row
  · unfold small_square_sum_loss
    have hcomm : List.zipWith (List.zipWith fun a b => (a - b) ^ 2) y_pred y_true
        = List.zipWith (List.zipWith fun a b => (a - b) ^ 2) y_true y_pred := by
      apply List.zipWith_comm_of_comm
      intro x y
      apply List.zipWith_comm_of_comm
      intro a b
      ring
    rw [hcomm]

/-- C6: building with a nonempty input shape stores the two weights made
from the init function, records layer_init and the input shape, and marks
the layer built; get_build_config then returns exactly the dictionary of
the input shape and the init function, and build_from_config rebuilds by
calling build with exactly those two entries, after which layer_init
equals the config entry and the layer is built. -/
theorem claim6_build_config :
    ∀ (self : LayerWithCustomBuild) (rest : List Nat) (lastDim : Nat) (li : String),
      self.build (rest ++ [lastDim]) li = some
          { units := self.units,
            w := some { shape := [lastDim, self.units], init := li, trainable := true },
            b := some { shape := [self.units], init := li, trainable := true },
            layer_init := some li,
            built := true,
            build_input_shape := some (rest ++ [lastDim]) }
      ∧ (∀ self2 : LayerWithCustomBuild, self.build (rest ++ [lastDim]) li = some self2 →
            self2.get_build_config = some { input_shape := rest ++ [lastDim], layer_init := li })
      ∧ (∀ (self3 : LayerWithCustomBuild) (cfg : BuildConfig),
            self3.build_from_config cfg = self3.build cfg.input_shape cfg.layer_init)
      ∧ (∀ (self3 self4 : LayerWithCustomBuild) (cfg : BuildConfig),
            self3.build_from_config cfg = some self4 →
              self4.layer_init = some cfg.layer_init ∧ self4.built = true) := by
  intro self rest lastDim li
  have hbuild : self.build (rest ++ [lastDim]) li = some
      { units := self.units,
        w := some { shape := [lastDim, self.units], init := li, trainable := true },
        b := some { shape := [self.units], init := li, trainable := true },
        layer_init := some li,
        built := true,
        build_input_shape := some (rest ++ [lastDim]) } := by
    unfold LayerWithCustomBuild.build
    rw [List.getLast?_concat]
    rfl
  refine ⟨hbuild, ?_, fun _ _ => rfl, build_from_config_sets⟩
  intro self2 h2
  rw [hbuild] at h2
  injection h2 with h2
  subst h2
  rfl

/-- Witness for C6 at the values of the notebook script: units 16, input
shape (8,), init function random_normal. -/
theorem claim6_witness :
    ∃ s4 : LayerWithCustomBuild,
      LayerWithCustomBuild.build_from_config ⟨16, none, none, none, false, none⟩
          { input_shape := [8], layer_init := "random_normal" } = some s4
        ∧ s4.get_build_config = some { input_shape := [8], layer_init := "random_normal" }
        ∧ s4.layer_init = some "random_normal" ∧ s4.built = true := by
  obtain ⟨h1, h2, h3, h4⟩ :=
    claim6_build_config ⟨16, none, none, none, false, none⟩ [] 8 "random_normal"
  refine ⟨⟨16, some ⟨[8, 16], "random_normal", true⟩, some ⟨[16], "random_normal", true⟩,
    some "random_normal", true, some [8]⟩, ?_, ?_, ?_⟩
  · exact h1
  · exact h2 _ h1
  · exact h4 ⟨16, none, none, none, false, none⟩ _
      { input_shape := [8], layer_init := "random_normal" } h1

/-- C5: among the methods defined on the notebook classes, the framework
saving hooks defined are exactly the four listed pairs and no other of the
hook methods, each pair with its save direction and load direction on one
class. -/
theorem claim5_hook_pairs :
    overriddenMethods.filter (fun cm => isHookMethod cm.2) =
      [("LayerWithCustomVariables", "save_own_variables"),
       ("LayerWithCustomVariables", "load_own_variables"),
       ("LayerWithCustomAssets", "save_assets"),
       ("LayerWithCustomAssets", "load_assets"),
       ("LayerWithCustomBuild", "get_build_config"),
       ("LayerWithCustomBuild", "build_from_config"),
       ("ModelWithCustomCompile", "get_compile_config"),
       ("ModelWithCustomCompile", "compile_from_config")]
    ∧ (hookPairs.all fun pr => overriddenMethods.any fun cm =>
        cm.2 == pr.1 && (overriddenMethods.any fun cm2 =>
          cm2.1 == cm.1 && cm2.2 == pr.2)) = true := by
  constructor
  · rfl
  · rfl

/-- C4 counterexample: the claim that every model.save call targets one
single archive path fails: the first two example scripts already save to
two different paths. -/
theorem claim4_counterexample :
    "custom_vars_model.keras" ∈ savePaths ∧ "custom_assets_model.keras" ∈ savePaths
    ∧ ("custom_vars_model.keras" : String) ≠ "custom_assets_model.keras" := by
  refine ⟨?_, ?_, ?_⟩ <;> decide

/-- C4 amended: each example script writes through exactly one archive
path of its own, the four scripts using four pairwise distinct paths; in
every script load_model reads the same path its save wrote, and the only
asset file written under an asset sub-path is vocabulary.txt. -/
theorem claim4_amended_paths :
    savePaths = ["custom_vars_model.keras", "custom_assets_model.keras",
                 "custom_build_model.keras", "custom_compile_model.keras"]
    ∧ savePaths.Nodup
    ∧ (archivePaths.all fun p => p.1 == p.2) = true
    ∧ assetFiles = ["vocabulary.txt"] := by
  refine ⟨rfl, ?_, rfl, rfl⟩
  decide

/-- C10: no operation invoked by the notebook code cells, and no module it
imports, is one of the Python constructs that create threads, processes,
or asynchronous tasks; the embedded scripts are single sequential
state-passing programs. -/
theorem claim10_no_concurrency :
    notebookCalls.filter (fun c => concurrencyConstructs.contains c) = []
    ∧ notebookImports.filter (fun m => concurrencyConstructs.contains m) = [] := by
  exact ⟨rfl, rfl⟩

/-- C1 counterexample: in the LayerWithCustomAssets script the round trip
does not preserve the asserted attribute: saving the vocab
"Mary had a <unk> lamb." and loading it back yields
"Mary had a little lamb.", which the notebook asserts, and that differs
from the vocab at save time. -/
theorem claim1_counterexample :
    LayerWithCustomAssets.load_assets ⟨"Mary had a <unk> lamb.".data⟩
        (LayerWithCustomAssets.save_assets ⟨"Mary had a <unk> lamb.".data⟩ Dir.empty)
      = some ⟨"Mary had a little lamb.".data⟩
    ∧ "Mary had a little lamb.".data ≠ "Mary had a <unk> lamb.".data := by
  constructor
  · rfl
  · decide

/-- C1 amended: the variables, build and compile asserts validate round
trips (the restored attribute equals the original at save time, the
compile case provided the framework deserialization inverts the
serialization), while the LayerWithCustomAssets assert instead validates
the load-time transformation: the restored vocab is the original with
every occurrence of the token `<unk>` replaced by `little`, which at the
vocab of the script is "Mary had a little lamb.", not the original
string. -/
theorem claim1_amended_asserts :
    (∀ (α : Type) (L : LayerWithCustomVariables α),
        L.load_own_variables (L.save_own_variables Store.empty) = some L)
    ∧ (∀ (v : List Char) (d : Dir) (self2 : LayerWithCustomAssets),
        self2.load_assets (LayerWithCustomAssets.save_assets ⟨v⟩ d) = some ⟨unkToLittle v⟩)
    ∧ (∀ (d : Dir) (self2 : LayerWithCustomAssets),
        self2.load_assets (LayerWithCustomAssets.save_assets ⟨"Mary had a <unk> lamb.".data⟩ d)
          = some ⟨"Mary had a little lamb.".data⟩)
    ∧ (∀ (self3 self4 : LayerWithCustomBuild) (cfg : BuildConfig),
        self3.build_from_config cfg = some self4 →
          self4.layer_init = some cfg.layer_init ∧ self4.built = true)
    ∧ (∀ (D O L M : Type) (self self2 : ModelWithCustomCompile D O L M)
         (o : O) (l : L) (m : M) (dO : O → O) (dL : L → L) (dM : M → M),
        dO o = o → dL l = l → dM m = m →
        ∀ cfg, (self.compile o l m).get_compile_config = some cfg →
          (self2.compile_from_config dO dL dM cfg).model_optimizer = some o
          ∧ (self2.compile_from_config dO dL dM cfg).loss_fn = some l
          ∧ (self2.compile_from_config dO dL dM cfg).loss_metrics = some m) := by
  refine ⟨fun α L => load_save_own_variables L, fun v d self2 => load_save_assets v d self2,
    fun d self2 => load_save_assets _ d self2, build_from_config_sets, ?_⟩
  intro D O L M self self2 o l m dO dL dM hO hL hM cfg hcfg
  have : cfg = { model_optimizer := o, loss_fn := l, metric := m } := by
    have hrfl : (self.compile o l m).get_compile_config =
        some { model_optimizer := o, loss_fn := l, metric := m } := rfl
    rw [hrfl] at hcfg
    injection hcfg with h
    exact h.symm
  subst this
  unfold ModelWithCustomCompile.compile_from_config ModelWithCustomCompile.compile
  simp [hO, hL, hM]

/-- Witness for C1 at concrete inputs: a one-weight rational layer for the
variables round trip, the vocab of the script for the assets
transformation, the script build parameters, and the script compile
parameters with identity deserialization. -/
theorem claim1_amended_witness :
    (LayerWithCustomVariables.load_own_variables (⟨[(1 : ℚ)], 2⟩ : LayerWithCustomVariables ℚ)
        (LayerWithCustomVariables.save_own_variables ⟨[(1 : ℚ)], 2⟩ Store.empty)
      = some ⟨[(1 : ℚ)], 2⟩)
    ∧ (LayerWithCustomAssets.load_assets ⟨[]⟩
        (LayerWithCustomAssets.save_assets ⟨"Mary had a <unk> lamb.".data⟩ Dir.empty)
      = some ⟨"Mary had a little lamb.".data⟩)
    ∧ ((⟨16, some ⟨[8, 16], "random_normal", true⟩, some ⟨[16], "random_normal", true⟩,
          some "random_normal", true, some [8]⟩ : LayerWithCustomBuild).layer_init
          = some "random_normal"
        ∧ (⟨16, some ⟨[8, 16], "random_normal", true⟩, some ⟨[16], "random_normal", true⟩,
            some "random_normal", true, some [8]⟩ : LayerWithCustomBuild).built = true)
    ∧ ((ModelWithCustomCompile.compile_from_config
          (⟨(), (), none, none, none⟩ : ModelWithCustomCompile Unit String String (List String))
          id id id { model_optimizer := "SGD", loss_fn := "small_square_sum_loss",
                     metric := ["accuracy", "mean_pred"] }).model_optimizer = some "SGD") := by
  obtain ⟨h1, h2, h3, h4, h5⟩ := claim1_amended_asserts
  refine ⟨h1 ℚ ⟨[(1 : ℚ)], 2⟩, h3 Dir.empty ⟨[]⟩, h4 ⟨16, none, none, none, false, none⟩ _
    { input_shape := [8], layer_init := "random_normal" } rfl, ?_⟩
  exact (h5 Unit String String (List String) ⟨(), (), none, none, none⟩ ⟨(), (), none, none, none⟩
    "SGD" "small_square_sum_loss" ["accuracy", "mean_pred"] id id id rfl rfl rfl
    { model_optimizer := "SGD", loss_fn := "small_square_sum_loss",
      metric := ["accuracy", "mean_pred"] } rfl).1

end KerasGuide
